import Mathlib

/-
Verification of the subprocess-tunnel orchestrator (src/src/tunnel.py)
against its natural-language specification.

The Python class Tunnel is shallowly embedded: its mutable attributes
become a Lean structure, each method becomes a state-passing function
returning the final state together with an optional Python exception,
and the per-worker line loop together with the shared url list is
additionally modelled by a small-step relation so that interleavings of
the worker threads are covered.  Python regular expressions are an
external collaborator (the standard-library re engine); a compiled
pattern is modelled by its search behaviour, a function from a line to
the optional matched text.
-/

namespace Tunnel

/-- A dynamically typed Python value, restricted to the shapes that can
reach a tunnel dictionary: strings, compiled patterns (modelled by their
search behaviour), integers, None, and opaque callables. -/
inductive PyVal where
  | str (s : String)
  | pat (search : String → Option String)
  | int (n : Int)
  | pyNone
  | callable (id : Nat)

/-- A Python exception value, carrying the message of the raise site. -/
inductive PyErr where
  | runtimeError (msg : String)
  | valueError (msg : String)

/-- One entry of Tunnel.tunnel_list (the TunnelDict TypedDict of
src/src/tunnel.py:23-28): the five keys every dictionary built by
add_tunnel carries.  Fields are dynamically typed because add_tunnel
performs no type checks. -/
structure TunnelDict where
  command : PyVal
  pattern : PyVal
  name : PyVal
  note : PyVal
  callback : PyVal

/-- Characters matched by the regex class backslash-S: any
non-whitespace character. -/
def isNonSpace (c : Char) : Bool := !c.isWhitespace

/-- The literal tail of the pattern from the specification example. -/
def suffixExampleCom : List Char := ".example.com".data

/-- Longest match of the regex (backslash-S)+ followed by the literal
text .example.com at the head of cs: the longest all-non-space prefix
of cs that ends with .example.com and is strictly longer than the
literal tail (the plus requires at least one character). -/
def bestMatchAt (cs : List Char) : Option (List Char) :=
  (List.range (cs.length + 1)).reverse.findSome? (fun t =>
    let p := cs.take t
    if 13 ≤ t && p.all isNonSpace && suffixExampleCom.isSuffixOf p then some p
    else Option.none)

/-- Leftmost search: try each start position from the left, returning
the greedy match at the first position admitting one. -/
def searchExampleComAux : List Char → Option (List Char)
  | [] => Option.none
  | c :: rest =>
    match bestMatchAt (c :: rest) with
    | some p => some p
    | Option.none => searchExampleComAux rest

/-- Modelled from the external Python re engine: the search behaviour of
the compiled pattern whose source text is (backslash-S)+ backslash-dot
example backslash-dot com, the pattern the specification fixes an
example for.  re.search returns the leftmost match, with the greedy
quantifier taking the longest run that still allows the literal tail. -/
def searchExampleCom (line : String) : Option String :=
  (searchExampleComAux line.data).map (fun l => String.mk l)

/-- Modelled from the external Python re module: re.compile maps pattern
source text to a compiled pattern.  Only the search behaviour of the one
pattern text the specification exercises end to end is modelled; every
other compiled pattern occurs in the claims only through an explicitly
given search function, so its compiled behaviour is irrelevant here. -/
def compileRe (src : String) : String → Option String :=
  fun line =>
    if src = "\\S+\\.example\\.com" then searchExampleCom line else Option.none

/-- The pattern conversion of add_tunnel (src/src/tunnel.py:171-173): a
string is compiled with re.compile, any other value is kept as given. -/
def compilePattern : PyVal → PyVal
  | PyVal.str p => PyVal.pat (compileRe p)
  | v => v

/-- Python str.strip with no argument, an external stdlib method:
remove leading and trailing whitespace. -/
def pyStrip (s : String) : String :=
  String.mk
    (((s.data.dropWhile Char.isWhitespace).reverse.dropWhile Char.isWhitespace).reverse)

/-- Python str.startswith, an external stdlib method. -/
def pyStartswith (s pre : String) : Bool :=
  pre.data.isPrefixOf s.data

/-- The link normalization of Tunnel._process_line
(src/src/tunnel.py:362-363): the matched group is stripped and prefixed
with http:// unless it already starts with the text http. -/
def processLink (m : String) : String :=
  let link := pyStrip m
  if pyStartswith link "http" then link else "http://" ++ link

/-- Tunnel._process_line (src/src/tunnel.py:346-369): scan the line
against the pattern of every registered tunnel in order; on the first
match append the normalized link together with the note of that tunnel
to the shared url list and report true, otherwise report false.  The
result pairs the url list after the call with some of the returned
boolean, or with Option.none when the dynamic attribute access
pattern.search raises because the stored pattern is not a compiled
pattern (the exception propagates to the caller before any append).
The optional per-tunnel callback invocation is an external side effect
and has no action on the state modelled here. -/
def process_line (tl : List TunnelDict) (urls : List (String × PyVal)) (line : String) :
    List (String × PyVal) × Option Bool :=
  match tl with
  | [] => (urls, some false)
  | t :: rest =>
    match t.pattern with
    | PyVal.pat search =>
      match search line with
      | some m => (urls ++ [(processLink m, t.note)], some true)
      | Option.none => process_line rest urls line
    | _ => (urls, Option.none)

/-- The read loop of Tunnel._run (src/src/tunnel.py:413-421) of one
worker, over the finite list of lines the child process emits before
the loop ends (end of stream, process exit or the stop event): while
the url_extracted flag is clear each line goes through _process_line
and the flag takes the result; once set, remaining lines are only
drained and logged.  An exception from _process_line is caught by the
surrounding try (src/src/tunnel.py:423) and ends the loop. -/
def run_lines (tl : List TunnelDict) :
    List String → List (String × PyVal) → Bool → List (String × PyVal) × Bool
  | [], urls, ext => (urls, ext)
  | line :: rest, urls, ext =>
    if ext then run_lines tl rest urls true
    else
      match process_line tl urls line with
      | (urls1, some b) => run_lines tl rest urls1 b
      | (urls1, Option.none) => (urls1, false)

/-- The mutable attributes of a Tunnel instance
(src/src/tunnel.py:47-90) that the claims concern.  The thread and
process handle collections self.jobs and self.processes hold opaque
operating-system resources and are modelled by their sizes; the two
threading.Event objects are modelled by booleans; the logging fields,
the debug and propagate flags, the log directory and the session
callback are external logging or callback plumbing with no action on
the verified behaviour and are omitted. -/
structure State where
  isRunning : Bool
  urls : List (String × PyVal)
  jobs : Nat
  processes : Nat
  tunnelList : List TunnelDict
  stopEvent : Bool
  printed : Bool
  port : Int
  checkLocalPort : Bool
  timeout : Int

/-- The constructor Tunnel.__init__ (src/src/tunnel.py:47-90): not
running, all collections empty, both events clear, configuration
stored. -/
def mkTunnel (port : Int) (check_local_port : Bool) (timeout : Int) : State :=
  { isRunning := false
    urls := []
    jobs := 0
    processes := 0
    tunnelList := []
    stopEvent := false
    printed := false
    port := port
    checkLocalPort := check_local_port
    timeout := timeout }

/-- Tunnel.add_tunnel (src/src/tunnel.py:151-176): compile the pattern
when it is given as a string, then append the dictionary.  The body
performs no validation of its arguments; the keyword-only calling
convention makes a call with a missing required argument fail with a
TypeError before the body runs, which is why the three required fields
appear here as plain parameters and the two optional ones take the
Python default None at call sites that omit them. -/
def add_tunnel (s : State) (command : PyVal) (pattern : PyVal) (name : PyVal)
    (note : PyVal) (callback : PyVal) : State :=
  { s with tunnelList :=
      s.tunnelList ++
        [{ command := command
           pattern := compilePattern pattern
           name := name
           note := note
           callback := callback }] }

/-- One element of the tunnel_list argument of Tunnel.with_tunnel_list:
either a dictionary over the five TunnelDict keys, a missing key being
Option.none, or a value that is not a dictionary at all. -/
inductive BatchItem where
  | dict (command : Option PyVal) (pattern : Option PyVal) (name : Option PyVal)
      (note : Option PyVal) (callback : Option PyVal)
  | nonDict (v : PyVal)

/-- The per-entry validation predicate of Tunnel.with_tunnel_list
(src/src/tunnel.py:121-128): the entry is a dictionary, the keys
command, pattern and name are present, command and name are strings and
pattern is a compiled pattern or a string. -/
def validItem : BatchItem → Bool
  | BatchItem.nonDict _ => false
  | BatchItem.dict c p n _ _ =>
    (match c with | some (PyVal.str _) => true | _ => false)
    && (match p with | some (PyVal.str _) => true | some (PyVal.pat _) => true | _ => false)
    && (match n with | some (PyVal.str _) => true | _ => false)

/-- The validation error message of src/src/tunnel.py:129-137. -/
def tunnelListError : PyErr :=
  PyErr.valueError
    ("tunnel_list must be a list of dictionaries with required key-value pairs:\n" ++
     "  command: str\n  pattern: re.Pattern | str\n  name: str\n" ++
     "optional key-value pairs:\n  note: str\n  callback: Callable[[str, str], None]")

/-- The dictionary add_tunnel builds from one validated batch entry:
required keys forwarded, the pattern compiled when a string, missing
optional keys falling back to the Python default None.  The fallback
arm is never reached for an entry that passed validItem. -/
def entryToDict : BatchItem → TunnelDict
  | BatchItem.dict (some c) (some p) (some n) note cb =>
    { command := c
      pattern := compilePattern p
      name := n
      note := note.getD PyVal.pyNone
      callback := cb.getD PyVal.pyNone }
  | _ =>
    { command := PyVal.pyNone
      pattern := PyVal.pyNone
      name := PyVal.pyNone
      note := PyVal.pyNone
      callback := PyVal.pyNone }

/-- The registration step of the loop at src/src/tunnel.py:147-148,
init_cls.add_tunnel with the entry unpacked as keyword arguments.  The
fallback arm mirrors entryToDict and is never reached after
validation. -/
def addTunnelItem (s : State) : BatchItem → State
  | BatchItem.dict (some c) (some p) (some n) note cb =>
    add_tunnel s c p n (note.getD PyVal.pyNone) (cb.getD PyVal.pyNone)
  | _ => s

/-- Tunnel.with_tunnel_list (src/src/tunnel.py:92-149): raise the
validation error when the list is empty or any entry fails the
per-entry check, otherwise construct a fresh instance and register
every entry in order. -/
def with_tunnel_list (port : Int) (items : List BatchItem)
    (check_local_port : Bool) (timeout : Int) : Except PyErr State :=
  if items.isEmpty || !(items.all validItem) then Except.error tunnelListError
  else Except.ok (items.foldl addTunnelItem (mkTunnel port check_local_port timeout))

/-- Tunnel.__enter__ (src/src/tunnel.py:235-262): raise when already
running or when no tunnels are registered; otherwise start the print
thread and one worker thread per registered tunnel and mark the
instance running.  The spawned threads run concurrently with the state
returned here; their line processing is modelled by the session step
relation below. -/
def enter (s : State) : State × Option PyErr :=
  if s.isRunning then
    (s, some (PyErr.runtimeError "Tunnel is already running by another method"))
  else if s.tunnelList.isEmpty then
    (s, some (PyErr.valueError "No tunnels added"))
  else
    ({ s with jobs := s.jobs + 1 + s.tunnelList.length, isRunning := true }, Option.none)

/-- The gate each worker evaluates at src/src/tunnel.py:390: whether
_run blocks on wait_for_condition, until the port stops being available
or the stop event is set, before launching its external command. -/
def workerWaitsForPort (s : State) : Bool := s.checkLocalPort

/-- The state in which Tunnel.start runs its session
(src/src/tunnel.py:188-192): the check_local_port attribute is cleared
before __enter__ is called, so the threads spawned by __enter__ observe
it cleared. -/
def startSessionState (s : State) : State := { s with checkLocalPort := false }

/-- Tunnel.start (src/src/tunnel.py:178-201): raise when already
running; otherwise save and clear check_local_port, call __enter__, and
block until the printed event is set, finally restoring the saved
flag.  The call of __enter__ is outside the try statement, so when it
raises, the exception propagates without the finally block running and
the flag stays cleared.  The concurrent effects of the session threads
on urls and processes are modelled by the session step relation; here
the completed blocking wait is reflected by the printed event being
set.  The KeyboardInterrupt branch, which additionally calls stop
before the same finally block, is not modelled. -/
def start (s : State) : State × Option PyErr :=
  if s.isRunning then (s, some (PyErr.runtimeError "Tunnel is already running"))
  else
    let r := enter (startSessionState s)
    match r.2 with
    | some e => (r.1, some e)
    | Option.none =>
      ({ r.1 with printed := true, checkLocalPort := s.checkLocalPort }, Option.none)

/-- Tunnel.reset (src/src/tunnel.py:267-276): empty the url list and
both handle collections, clear both events, mark not running. -/
def reset (s : State) : State :=
  { s with
    urls := []
    jobs := 0
    processes := 0
    stopEvent := false
    printed := false
    isRunning := false }

/-- Tunnel.stop (src/src/tunnel.py:203-233): raise when not running;
otherwise set the stop event, terminate every child process (an
external effect on operating-system handles, escalating from graceful
to forceful), join every thread, and reset the internal state. -/
def stop (s : State) : State × Option PyErr :=
  if s.isRunning then (reset { s with stopEvent := true }, Option.none)
  else (s, some (PyErr.runtimeError "Tunnel is not running"))

/-- The clamp at src/src/tunnel.py:320-322: a bounded timeout is raised
to at least 1 before the polling loop starts; an unbounded timeout is
left unbounded.  Durations are modelled as rationals, Python float
arithmetic on these small values being exact enough for every property
stated here. -/
def clampTimeout : Option ℚ → Option ℚ
  | Option.none => Option.none
  | some t => some (max 1 t)

/-- Outcome of the polling loop of Tunnel.wait_for_condition: the
condition was met (return True), the deadline passed (return False),
time.sleep raised ValueError on a negative duration (the exception
propagates out of the loop), or the modelling fuel ran out while the
loop was still going. -/
inductive WaitResult where
  | met
  | timedOut
  | raised
  | fuelOut

/-- The polling loop of Tunnel.wait_for_condition
(src/src/tunnel.py:324-344), with the condition results supplied as a
function of the check index, time idealized so that the elapsed time
equals the sum of the sleeps performed, and fuel bounding the number of
iterations modelled (the Python loop with an unbounded timeout may run
forever; exhausting the fuel reports WaitResult.fuelOut).  The external
stdlib call time.sleep raises ValueError when its argument is negative,
so a negative computed sleep makes the loop terminate with that
exception and the sleep is not performed.  The result pairs the outcome
with the list of sleep durations performed, the checks counter being
the first numeric argument and the elapsed time the second. -/
def waitGo (cond : Nat → Bool) (interval : ℚ) (timeout : Option ℚ) :
    Nat → Nat → ℚ → WaitResult × List ℚ
  | 0, _, _ => (WaitResult.fuelOut, [])
  | Nat.succ fuel, k, elapsed =>
    if cond k then (WaitResult.met, [])
    else
      match timeout with
      | some t =>
        let remaining := t - elapsed
        if remaining ≤ 0 then (WaitResult.timedOut, [])
        else
          let ni := min interval (remaining / (k + 2))
          if ni < 0 then (WaitResult.raised, [])
          else
            let r := waitGo cond interval timeout fuel (k + 1) (elapsed + ni)
            (r.1, ni :: r.2)
      | Option.none =>
        if interval < 0 then (WaitResult.raised, [])
        else
          let r := waitGo cond interval timeout fuel (k + 1) (elapsed + interval)
          (r.1, interval :: r.2)

/-- Tunnel.wait_for_condition (src/src/tunnel.py:297-344): clamp the
timeout, then poll the condition, sleeping between checks; under a
bounded timeout the sleep is shrunk to distribute the remaining budget
over the coming checks. -/
def wait_for_condition (cond : Nat → Bool) (interval : ℚ) (timeout : Option ℚ)
    (fuel : Nat) : WaitResult × List ℚ :=
  waitGo cond interval (clampTimeout timeout) fuel 0 0

/-- One worker of a running session, as seen by the read loop of
Tunnel._run: the lines its child process has yet to deliver, and its
url_extracted flag. -/
structure SessionState where
  workers : List (List String × Bool)
  urls : List (String × PyVal)

/-- The session state right after Tunnel.__enter__ spawned the worker
threads: one worker per registered tunnel, each with its url_extracted
flag clear and the lines its child process will emit, and the shared
url list empty. -/
def initSession (linesFor : List (List String)) : SessionState :=
  { workers := linesFor.map (fun ls => (ls, false)), urls := [] }

/-- Interleaved execution of the worker read loops of a running session
(src/src/tunnel.py:413-421), one loop iteration of one worker per
step.  readDrained: a worker whose url_extracted flag is set consumes a
line without scanning it.  readScan: a worker whose flag is clear runs
_process_line on its next line, the shared url list and its flag taking
the results; the append inside _process_line is under the shared lock,
so it is one atomic step.  readRaise: _process_line raises (dynamic
attribute error on a non-pattern), the exception is caught at
src/src/tunnel.py:423 and the loop of that worker ends.  exitLoop: the
loop of a worker ends for any of the remaining reasons (end of stream,
child process exit, or the stop event observed). -/
inductive SessionStep (tl : List TunnelDict) : SessionState → SessionState → Prop where
  | readDrained (s : SessionState) (i : Nat) (line : String) (rest : List String)
      (h : s.workers.get? i = some (line :: rest, true)) :
      SessionStep tl s { workers := s.workers.set i (rest, true), urls := s.urls }
  | readScan (s : SessionState) (i : Nat) (line : String) (rest : List String)
      (urls1 : List (String × PyVal)) (b : Bool)
      (h : s.workers.get? i = some (line :: rest, false))
      (hp : process_line tl s.urls line = (urls1, some b)) :
      SessionStep tl s { workers := s.workers.set i (rest, b), urls := urls1 }
  | readRaise (s : SessionState) (i : Nat) (line : String) (rest : List String)
      (urls1 : List (String × PyVal))
      (h : s.workers.get? i = some (line :: rest, false))
      (hp : process_line tl s.urls line = (urls1, Option.none)) :
      SessionStep tl s { workers := s.workers.set i ([], false), urls := urls1 }
  | exitLoop (s : SessionState) (i : Nat) (ls : List String) (e : Bool)
      (h : s.workers.get? i = some (ls, e)) :
      SessionStep tl s { workers := s.workers.set i ([], e), urls := s.urls }

/-- Number of workers whose url_extracted flag is set. -/
def countExtracted (ws : List (List String × Bool)) : Nat :=
  (ws.filter (fun w => w.2)).length

/-- The session invariant: the worker list keeps its size and the
shared url list never holds more entries than there are workers whose
url_extracted flag is set. -/
def sessionInv (n : Nat) (s : SessionState) : Prop :=
  s.workers.length = n ∧ s.urls.length ≤ countExtracted s.workers

/-- The dynamic read pattern.search of a stored pattern field, viewed
from outside _process_line: the optional match when the field is a
compiled pattern, Option.none otherwise. -/
def patternSearch (v : PyVal) (line : String) : Option String :=
  match v with
  | PyVal.pat f => f line
  | _ => Option.none

/-- Written from the words of the specification, for comparison with
the source normalization: a captured match carries a scheme when it
opens with a nonempty run of letters followed by the separator
colon-slash-slash. -/
def hasScheme (s : String) : Bool :=
  let head := s.data.takeWhile (fun c => c.isAlpha)
  !head.isEmpty && "://".data.isPrefixOf (s.data.drop head.length)

/-- A concrete registered spec whose compiled pattern matches no
line. -/
def specA : TunnelDict :=
  { command := PyVal.str "provider-a"
    pattern := PyVal.pat (fun _ => Option.none)
    name := PyVal.str "A"
    note := PyVal.str "note-A"
    callback := PyVal.pyNone }

/-- A concrete registered spec whose compiled pattern matches the line
b-url.test ready, capturing b-url.test. -/
def specB : TunnelDict :=
  { command := PyVal.str "provider-b"
    pattern := PyVal.pat (fun line =>
      if line = "b-url.test ready" then some "b-url.test" else Option.none)
    name := PyVal.str "B"
    note := PyVal.str "note-B"
    callback := PyVal.pyNone }

/-- A concrete two-spec registry: the worker of specA and the worker of
specB both run their read loops against this list. -/
def tlAB : List TunnelDict := [specA, specB]

/-- A freshly constructed instance with one registered spec, ready to
start, with checkLocalPort enabled. -/
def readyState : State :=
  add_tunnel (mkTunnel 3000 true 60) (PyVal.str "provider-a")
    (PyVal.pat (fun _ => Option.none)) (PyVal.str "A") PyVal.pyNone PyVal.pyNone

/-- A concrete running instance mid-session: one registered spec, live
thread and process handles, one discovered url, results printed. -/
def runningState : State :=
  { readyState with
    isRunning := true
    jobs := 2
    processes := 1
    urls := [("http://u.test", PyVal.pyNone)]
    printed := true }

/-- A batch entry that fails validation: its name field holds an
integer instead of a string. -/
def badDictItem : BatchItem :=
  BatchItem.dict (some (PyVal.str "provider-x")) (some (PyVal.str "xpat"))
    (some (PyVal.int 5)) (some PyVal.pyNone) (some PyVal.pyNone)

/-- A batch entry that passes validation, with the optional callback
key absent. -/
def goodItem : BatchItem :=
  BatchItem.dict (some (PyVal.str "provider-g")) (some (PyVal.str "gpat"))
    (some (PyVal.str "G")) (some (PyVal.str "note-g")) Option.none

/-- The registry of the specification example: one spec registered by
add_tunnel with its pattern given as the string
backslash-S-plus-backslash-dot-example-backslash-dot-com, compiled at
registration. -/
def exampleComTl : List TunnelDict :=
  (add_tunnel (mkTunnel 9999 false 60) (PyVal.str "provider-ex")
    (PyVal.str "\\S+\\.example\\.com") (PyVal.str "ex") PyVal.pyNone
    PyVal.pyNone).tunnelList

/-- Case analysis of one _process_line call: it either appends exactly
one entry and reports true, or leaves the url list unchanged and
reports false, or leaves it unchanged and raises. -/
theorem process_line_shape (tl : List TunnelDict) (urls : List (String × PyVal))
    (line : String) :
    (∃ u, process_line tl urls line = (urls ++ [u], some true)) ∨
    process_line tl urls line = (urls, some false) ∨
    process_line tl urls line = (urls, Option.none) := by
  induction tl with
  | nil => exact Or.inr (Or.inl rfl)
  | cons t rest ih =>
    cases hp : t.pattern with
    | pat search =>
      cases hm : search line with
      | some m =>
        exact Or.inl ⟨(processLink m, t.note), by simp [process_line, hp, hm]⟩
      | none =>
        rcases ih with ⟨u, hu⟩ | h | h
        · exact Or.inl ⟨u, by simp [process_line, hp, hm, hu]⟩
        · exact Or.inr (Or.inl (by simp [process_line, hp, hm, h]))
        · exact Or.inr (Or.inr (by simp [process_line, hp, hm, h]))
    | str a => exact Or.inr (Or.inr (by simp [process_line, hp]))
    | int n => exact Or.inr (Or.inr (by simp [process_line, hp]))
    | pyNone => exact Or.inr (Or.inr (by simp [process_line, hp]))
    | callable c => exact Or.inr (Or.inr (by simp [process_line, hp]))

/-- A worker whose url_extracted flag is set only drains its remaining
lines: the url list comes back unchanged and the flag stays set. -/
theorem run_lines_drained (tl : List TunnelDict) (lines : List String)
    (urls : List (String × PyVal)) :
    run_lines tl lines urls true = (urls, true) := by
  induction lines with
  | nil => rfl
  | cons l rest ih => simpa [run_lines] using ih

/-- One worker read loop appends at most one entry to the url list. -/
theorem run_lines_length (tl : List TunnelDict) (lines : List String)
    (urls : List (String × PyVal)) :
    ((run_lines tl lines urls false).1).length ≤ urls.length + 1 := by
  induction lines generalizing urls with
  | nil => simp [run_lines]
  | cons l rest ih =>
    rcases process_line_shape tl urls l with ⟨u, hu⟩ | h | h
    · simp [run_lines, hu, run_lines_drained]
    · simpa [run_lines, h] using ih urls
    · simp [run_lines, h]

/-- Replacing the worker at a present index changes the number of
extracted workers by the difference of the two flags. -/
theorem countExtracted_set (ws : List (List String × Bool)) (i : Nat)
    (w1 w2 : List String × Bool) (h : ws.get? i = some w1) :
    countExtracted (ws.set i w2) + (if w1.2 then 1 else 0)
      = countExtracted ws + (if w2.2 then 1 else 0) := by
  induction ws generalizing i with
  | nil => simp [List.get?] at h
  | cons a t ih =>
    cases i with
    | zero =>
      simp only [List.get?] at h
      cases h
      simp only [List.set, countExtracted, List.filter_cons]
      by_cases h1 : w1.2 <;> by_cases h2 : w2.2 <;> simp [h1, h2]
    | succ n =>
      simp only [List.get?] at h
      have := ih n h
      simp only [List.set, countExtracted, List.filter_cons] at this ⊢
      by_cases ha : a.2 <;> simp [ha] at this ⊢ <;> omega

/-- Every session step preserves the session invariant. -/
theorem sessionInv_step (tl : List TunnelDict) (n : Nat) (s s2 : SessionState)
    (hs : SessionStep tl s s2) (h : sessionInv n s) : sessionInv n s2 := by
  obtain ⟨hlen, hurls⟩ := h
  cases hs with
  | readDrained i line rest hget =>
    have hc := countExtracted_set s.workers i (line :: rest, true) (rest, true) hget
    refine ⟨by simpa using hlen, ?_⟩
    show s.urls.length ≤ countExtracted (s.workers.set i (rest, true))
    simp at hc
    omega
  | readScan i line rest urls1 b hget hp =>
    have hc := countExtracted_set s.workers i (line :: rest, false) (rest, b) hget
    rcases process_line_shape tl s.urls line with ⟨u, hu⟩ | heq | heq
    · rw [hu] at hp
      obtain ⟨h1, h2⟩ := Prod.mk.injEq .. ▸ hp
      cases Option.some.injEq .. ▸ h2
      refine ⟨by simpa using hlen, ?_⟩
      simp [← h1] at hc ⊢
      omega
    · rw [heq] at hp
      obtain ⟨h1, h2⟩ := Prod.mk.injEq .. ▸ hp
      cases Option.some.injEq .. ▸ h2
      refine ⟨by simpa using hlen, ?_⟩
      simp [← h1] at hc ⊢
      omega
    · rw [heq] at hp
      simp at hp
  | readRaise i line rest urls1 hget hp =>
    have hc := countExtracted_set s.workers i (line :: rest, false) ([], false) hget
    rcases process_line_shape tl s.urls line with ⟨u, hu⟩ | heq | heq
    · rw [hu] at hp; simp at hp
    · rw [heq] at hp; simp at hp
    · rw [heq] at hp
      obtain ⟨h1, _⟩ := Prod.mk.injEq .. ▸ hp
      refine ⟨by simpa using hlen, ?_⟩
      simp [← h1] at hc ⊢
      omega
  | exitLoop i ls e hget =>
    have hc := countExtracted_set s.workers i (ls, e) ([], e) hget
    refine ⟨by simpa using hlen, ?_⟩
    show s.urls.length ≤ countExtracted (s.workers.set i ([], e))
    cases e <;> simp at hc <;> omega

/-- The session invariant holds in every state reachable from a start
state satisfying it. -/
theorem sessionInv_reach (tl : List TunnelDict) (n : Nat) (s0 s : SessionState)
    (h0 : sessionInv n s0) (hr : Relation.ReflTransGen (SessionStep tl) s0 s) :
    sessionInv n s := by
  induction hr with
  | refl => exact h0
  | tail _ hstep ih => exact sessionInv_step tl n _ _ hstep ih

/-- Under an unbounded timeout and a nonnegative interval, every sleep
of the polling loop lasts exactly the given interval: the sleep list is
a replication of it. -/
theorem waitGo_unbounded_sleeps (cond : Nat → Bool) (i : ℚ) (hi : 0 ≤ i)
    (fuel : Nat) (k : Nat) (e : ℚ) :
    ∃ n, (waitGo cond i Option.none fuel k e).2 = List.replicate n i := by
  have hni : ¬ i < 0 := not_lt.mpr hi
  induction fuel generalizing k e with
  | zero => exact ⟨0, rfl⟩
  | succ fuel ih =>
    by_cases h : cond k
    · exact ⟨0, by simp [waitGo, h]⟩
    · obtain ⟨n, hn⟩ := ih (k + 1) (e + i)
      exact ⟨n + 1, by simp [waitGo, h, hni, hn, List.replicate_succ]⟩

/-- When _process_line reports an extraction, the first registered spec
whose pattern matches the line supplied the match, and the appended
entry carries the note of that spec. -/
theorem process_line_first_match (tl : List TunnelDict)
    (urls : List (String × PyVal)) (l : String)
    (h : (process_line tl urls l).2 = some true) :
    ∃ t ∈ tl, ∃ f m, t.pattern = PyVal.pat f ∧ f l = some m ∧
      (process_line tl urls l).1 = urls ++ [(processLink m, t.note)] := by
  induction tl with
  | nil => simp [process_line] at h
  | cons t rest ih =>
    cases hp : t.pattern with
    | pat f =>
      cases hm : f l with
      | some m =>
        exact ⟨t, List.mem_cons_self t rest, f, m, hp, hm,
          by simp [process_line, hp, hm]⟩
      | none =>
        have hrw : process_line (t :: rest) urls l = process_line rest urls l := by
          simp [process_line, hp, hm]
        rw [hrw] at h
        obtain ⟨t1, ht1, f1, m1, hpat, hm1, happ⟩ := ih h
        exact ⟨t1, List.mem_cons_of_mem t ht1, f1, m1, hpat, hm1, by rw [hrw, happ]⟩
    | str a => simp [process_line, hp] at h
    | int n => simp [process_line, hp] at h
    | pyNone => simp [process_line, hp] at h
    | callable c => simp [process_line, hp] at h

/-- Registering one validated batch entry appends exactly the
dictionary entryToDict builds for it. -/
theorem addTunnelItem_valid (s : State) (it : BatchItem) (h : validItem it = true) :
    addTunnelItem s it = { s with tunnelList := s.tunnelList ++ [entryToDict it] } := by
  cases it with
  | nonDict v => simp [validItem] at h
  | dict c p n note cb =>
    cases c with
    | none => simp [validItem] at h
    | some cv =>
      cases p with
      | none => simp [validItem] at h
      | some pv =>
        cases n with
        | none => simp [validItem] at h
        | some nv => rfl

/-- Registering a batch of validated entries appends their dictionaries
in order. -/
theorem foldl_addTunnelItem (items : List BatchItem) (s : State)
    (h : items.all validItem = true) :
    items.foldl addTunnelItem s =
      { s with tunnelList := s.tunnelList ++ items.map entryToDict } := by
  induction items generalizing s with
  | nil =>
    show s = { s with tunnelList := s.tunnelList ++ [] }
    rw [List.append_nil]
  | cons a t ih =>
    simp only [List.all_cons, Bool.and_eq_true] at h
    rw [List.foldl_cons, addTunnelItem_valid s a h.1, ih _ h.2]
    have hl : (s.tunnelList ++ [entryToDict a]) ++ t.map entryToDict =
        s.tunnelList ++ entryToDict a :: t.map entryToDict := by
      simp
    show ({ s with tunnelList := (s.tunnelList ++ [entryToDict a]) ++ t.map entryToDict }
        : State) = _
    rw [hl]
    rfl

/-- C5 counterexample: with interval 0 and an unbounded timeout the
polling loop sleeps 0 time units between consecutive predicate checks,
so the effective sleep interval is not clamped to a positive value of
at least 1 unit and the loop degenerates into a busy loop. -/
theorem wait_zero_interval_cex :
    (wait_for_condition (fun _ => false) 0 Option.none 2).2 = [0, 0] ∧
    ¬ ((1 : ℚ) ≤ 0) := by
  exact ⟨rfl, by norm_num⟩

/-- C5 (amended): the clamp in wait_for_condition applies to the
timeout, not to the sleep interval: a bounded timeout is raised to at
least 1 unit before polling starts and an unbounded timeout stays
unbounded, while the interval is passed to time.sleep as given — under
an unbounded timeout every performed sleep between predicate checks
lasts exactly the interval argument for any nonnegative interval, so
interval 0 busy-loops, and a negative interval is not clamped either:
the first sleep raises the ValueError of time.sleep. -/
theorem wait_clamps_timeout_only (t : ℚ) (cond : Nat → Bool) (i : ℚ) (fuel : Nat) :
    (∃ t1, clampTimeout (some t) = some t1 ∧ 1 ≤ t1) ∧
    clampTimeout Option.none = Option.none ∧
    (0 ≤ i → ∃ n, (wait_for_condition cond i Option.none fuel).2 = List.replicate n i) ∧
    (i < 0 → cond 0 = false →
      wait_for_condition cond i Option.none (fuel + 1) = (WaitResult.raised, [])) := by
  refine ⟨⟨max 1 t, rfl, le_max_left 1 t⟩, rfl, fun hi => ?_, fun hi hc => ?_⟩
  · simpa [wait_for_condition, clampTimeout] using
      waitGo_unbounded_sleeps cond i hi fuel 0 0
  · simp [wait_for_condition, clampTimeout, waitGo, hc, hi]

/-- C5 witness: at interval 0 the sleeps performed are a replication of
0 (the busy loop), and at interval -1 the loop ends in the time.sleep
error. -/
theorem wait_clamps_timeout_only_witness :
    (∃ n, (wait_for_condition (fun _ => false) 0 Option.none 2).2 =
      List.replicate n (0 : ℚ)) ∧
    wait_for_condition (fun _ => false) (-1) Option.none 3 = (WaitResult.raised, []) :=
  ⟨(wait_clamps_timeout_only 0 (fun _ => false) 0 2).2.2.1 le_rfl,
   (wait_clamps_timeout_only 0 (fun _ => false) (-1) 2).2.2.2 (by norm_num) rfl⟩

/-- C9: at every reachable state of a session — started with one worker
per registered spec, each worker appending at most once under the guard
of its url_extracted flag — the length of the shared url list never
exceeds the number of registered specs. -/
theorem urls_length_bounded (tl : List TunnelDict) (linesFor : List (List String))
    (s : SessionState) (hl : linesFor.length = tl.length)
    (hr : Relation.ReflTransGen (SessionStep tl) (initSession linesFor) s) :
    (initSession linesFor).workers.length = tl.length ∧
    s.urls.length ≤ tl.length := by
  have h0 : sessionInv tl.length (initSession linesFor) := by
    constructor
    · simp [initSession, hl]
    · simp [initSession, countExtracted]
  obtain ⟨h1, h2⟩ := sessionInv_reach tl tl.length _ s h0 hr
  refine ⟨by simp [initSession, hl], ?_⟩
  have hle : countExtracted s.workers ≤ s.workers.length :=
    List.length_filter_le _ s.workers
  omega

/-- C9 witness: a concrete session over the two-spec registry, at its
initial state. -/
theorem urls_length_bounded_witness :
    (initSession [[], []]).workers.length = tlAB.length ∧
    (initSession [[], []]).urls.length ≤ tlAB.length :=
  urls_length_bounded tlAB [[], []] (initSession [[], []]) rfl
    Relation.ReflTransGen.refl

/-- C2 counterexample: the pattern of specA matches nothing on the line
b-url.test ready, yet the _process_line call of the worker of specA on
that line appends an entry — captured by the pattern of specB and
carrying the note of specB — and the subsequent _process_line call of
the worker of specB on its own copy of the line appends a second entry
for the same spec.  Workers do not scan only their own pattern, and one
TunnelSpec can receive more than one url entry. -/
theorem cross_spec_append_cex :
    patternSearch specA.pattern "b-url.test ready" = Option.none ∧
    process_line tlAB [] "b-url.test ready" =
      ([("http://b-url.test", PyVal.str "note-B")], some true) ∧
    process_line tlAB [("http://b-url.test", PyVal.str "note-B")] "b-url.test ready" =
      ([("http://b-url.test", PyVal.str "note-B"),
        ("http://b-url.test", PyVal.str "note-B")], some true) :=
  ⟨rfl, rfl, rfl⟩

/-- C2 (amended/corrected): each worker scans every output line against
the patterns of all registered specs in registration order, not only
against its own; on the first matching spec it appends the normalized
url paired with the note of that matching spec, and its url_extracted
flag then stops all further scanning by this worker, so each worker
appends at most one entry over its whole read loop — but the appended
entry may belong to another spec of the registry, and a single spec may
receive entries from several workers. -/
theorem worker_scan_semantics (tl : List TunnelDict) (lines : List String)
    (urls0 : List (String × PyVal)) (l : String)
    (h : (process_line tl urls0 l).2 = some true) :
    (run_lines tl lines urls0 true).1 = urls0 ∧
    (run_lines tl lines urls0 false).1.length ≤ urls0.length + 1 ∧
    ∃ t ∈ tl, ∃ f m, t.pattern = PyVal.pat f ∧ f l = some m ∧
      (process_line tl urls0 l).1 = urls0 ++ [(processLink m, t.note)] := by
  refine ⟨?_, run_lines_length tl lines urls0, process_line_first_match tl urls0 l h⟩
  rw [run_lines_drained]

/-- C2 witness: the amended statement at the two-spec registry and the
line matched by the pattern of specB. -/
theorem worker_scan_semantics_witness :
    (run_lines tlAB ["b-url.test ready"] [] true).1 = [] ∧
    (run_lines tlAB ["b-url.test ready"] [] false).1.length ≤
      ([] : List (String × PyVal)).length + 1 ∧
    ∃ t ∈ tlAB, ∃ f m, t.pattern = PyVal.pat f ∧ f "b-url.test ready" = some m ∧
      (process_line tlAB [] "b-url.test ready").1 =
        [] ++ [(processLink m, t.note)] :=
  worker_scan_semantics tlAB ["b-url.test ready"] [] "b-url.test ready" rfl

/-- C3 counterexample: the match ftp://host.example carries a scheme,
yet it is not stored unchanged: the code tests for the literal prefix
http rather than for the presence of a scheme, and stores
http://ftp://host.example. -/
theorem scheme_normalization_cex :
    hasScheme "ftp://host.example" = true ∧
    processLink "ftp://host.example" = "http://ftp://host.example" ∧
    processLink "ftp://host.example" ≠ "ftp://host.example" :=
  ⟨rfl, rfl, by decide⟩

/-- C3 (amended/corrected): the stored URL is the stripped captured
match, prefixed with http:// exactly when the stripped match does not
already start with the four characters http — not exactly when no
scheme is present; in particular the example of the specification
holds: through a spec registered with the pattern string of the
example, the line tunnel.example.com ready stores
http://tunnel.example.com. -/
theorem link_normalization (m : String) :
    (processLink m = pyStrip m ∨ processLink m = "http://" ++ pyStrip m) ∧
    (processLink m = pyStrip m ↔ pyStartswith (pyStrip m) "http" = true) ∧
    process_line exampleComTl [] "tunnel.example.com ready" =
      ([("http://tunnel.example.com", PyVal.pyNone)], some true) := by
  refine ⟨?_, ⟨?_, ?_⟩, rfl⟩
  · by_cases h : pyStartswith (pyStrip m) "http"
    · exact Or.inl (by simp [processLink, h])
    · exact Or.inr (by simp [processLink, h])
  · intro he
    by_contra hn
    have hb : pyStartswith (pyStrip m) "http" = false :=
      Bool.eq_false_iff.mpr (fun hx => hn hx)
    have h2 : processLink m = "http://" ++ pyStrip m := by
      simp [processLink, hb]
    rw [he] at h2
    have h3 : (pyStrip m).data.length = ("http://" ++ pyStrip m).data.length :=
      congrArg (fun s => s.data.length) h2
    have h4 : ("http://" ++ pyStrip m).data = "http://".data ++ (pyStrip m).data := rfl
    rw [h4, List.length_append] at h3
    simp at h3
  · intro h
    simp [processLink, h]

/-- C4 counterexample: a spec whose name field holds an integer fails
the validation criteria, yet add_tunnel raises no validation error and
appends it to the registry as given, only compiling the string
pattern. -/
theorem add_tunnel_accepts_invalid_cex :
    validItem badDictItem = false ∧
    (add_tunnel (mkTunnel 3000 true 60) (PyVal.str "provider-x") (PyVal.str "xpat")
        (PyVal.int 5) PyVal.pyNone PyVal.pyNone).tunnelList =
      [{ command := PyVal.str "provider-x"
         pattern := PyVal.pat (compileRe "xpat")
         name := PyVal.int 5
         note := PyVal.pyNone
         callback := PyVal.pyNone }] :=
  ⟨rfl, rfl⟩

/-- C4 (amended/corrected): add_tunnel validates nothing: it compiles a
pattern given as a string and appends the spec unconditionally, whether
or not the fields are correctly typed; presence of the three required
fields is enforced only by the keyword-only calling convention, and the
validation error listing the required fields is raised only by the bulk
constructor with_tunnel_list. -/
theorem add_tunnel_unvalidated (s : State) (c p n note cb : PyVal) (port : Int)
    (ps : String) :
    (add_tunnel s c p n note cb).tunnelList =
      s.tunnelList ++ [{ command := c, pattern := compilePattern p, name := n,
                         note := note, callback := cb }] ∧
    compilePattern (PyVal.str ps) = PyVal.pat (compileRe ps) ∧
    (validItem (BatchItem.dict (some c) (some p) (some n) (some note) (some cb))
        = false →
      with_tunnel_list port
          [BatchItem.dict (some c) (some p) (some n) (some note) (some cb)] true 60 =
        Except.error tunnelListError) := by
  refine ⟨rfl, rfl, fun h => ?_⟩
  simp [with_tunnel_list, List.all_cons, h]

/-- C4 witness: the invalid item of the counterexample is rejected by
the bulk constructor while add_tunnel appended it. -/
theorem add_tunnel_unvalidated_witness :
    with_tunnel_list 3000
        [BatchItem.dict (some (PyVal.str "provider-x")) (some (PyVal.str "xpat"))
          (some (PyVal.int 5)) (some PyVal.pyNone) (some PyVal.pyNone)] true 60 =
      Except.error tunnelListError :=
  (add_tunnel_unvalidated (mkTunnel 3000 true 60) (PyVal.str "provider-x")
      (PyVal.str "xpat") (PyVal.int 5) PyVal.pyNone PyVal.pyNone 3000 "xpat").2.2 rfl

/-- C6 counterexample: the empty batch has no entry failing validation,
yet with_tunnel_list raises the validation error instead of
constructing an instance with no registered specs. -/
theorem with_tunnel_list_empty_cex :
    ([] : List BatchItem).all validItem = true ∧
    with_tunnel_list 3000 [] true 60 = Except.error tunnelListError :=
  ⟨rfl, rfl⟩

/-- C6 (amended/corrected): with_tunnel_list fails atomically, raising
the validation error and constructing nothing, when the batch is EMPTY
or any entry fails validation (not a dict, missing command, pattern or
name, or one of these three wrongly typed); otherwise it constructs an
instance containing every entry in order, with string patterns
compiled. -/
theorem with_tunnel_list_atomic (port : Int) (clp : Bool) (tmo : Int)
    (items : List BatchItem) :
    (items.isEmpty = true → with_tunnel_list port items clp tmo =
      Except.error tunnelListError) ∧
    (items.all validItem = false → with_tunnel_list port items clp tmo =
      Except.error tunnelListError) ∧
    (items.isEmpty = false → items.all validItem = true →
      with_tunnel_list port items clp tmo =
        Except.ok { mkTunnel port clp tmo with tunnelList := items.map entryToDict }) := by
  refine ⟨fun h => by simp [with_tunnel_list, h], fun h => by simp [with_tunnel_list, h],
    fun h1 h2 => ?_⟩
  simp only [with_tunnel_list, h1, h2, Bool.not_true, Bool.or_false]
  rw [if_neg (by simp), foldl_addTunnelItem items _ h2]
  rfl

/-- C6 witness: a one-entry valid batch constructs the instance holding
exactly that entry. -/
theorem with_tunnel_list_atomic_witness :
    with_tunnel_list 3000 [goodItem] true 60 =
      Except.ok { mkTunnel 3000 true 60 with
                    tunnelList := [goodItem].map entryToDict } :=
  (with_tunnel_list_atomic 3000 true 60 [goodItem]).2.2 rfl rfl

/-- C7: stop while not running raises the state error and returns with
the whole state — urls, jobs, processes, both signals, isRunning, the
registry — untouched; and after a successful start the instance is
still running when start returns, so a second start without an
intervening stop raises the state error on the second call. -/
theorem out_of_sequence_state_errors (s0 s1 : State) (h0 : s0.isRunning = false)
    (h1 : (start s1).2 = Option.none) :
    stop s0 = (s0, some (PyErr.runtimeError "Tunnel is not running")) ∧
    (start s1).1.isRunning = true ∧
    (start (start s1).1).2 = some (PyErr.runtimeError "Tunnel is already running") := by
  have hrun : (start s1).1.isRunning = true := by
    by_cases hr : s1.isRunning
    · simp [start, hr] at h1
    · by_cases he : s1.tunnelList.isEmpty
      · simp [start, enter, startSessionState, hr, he] at h1
      · simp [start, enter, startSessionState, hr, he]
  refine ⟨by simp [stop, h0], hrun, ?_⟩
  generalize hgen : (start s1).1 = s2 at hrun
  simp [start, hrun]

/-- C7 witness: a fresh instance for the idle stop, and the one-spec
ready instance started twice. -/
theorem out_of_sequence_state_errors_witness :
    stop (mkTunnel 3000 true 60) =
      (mkTunnel 3000 true 60, some (PyErr.runtimeError "Tunnel is not running")) ∧
    (start readyState).1.isRunning = true ∧
    (start (start readyState).1).2 =
      some (PyErr.runtimeError "Tunnel is already running") :=
  out_of_sequence_state_errors (mkTunnel 3000 true 60) readyState rfl rfl

/-- C8: stop on a running instance raises nothing, leaves urls and the
worker and process collections empty, clears both the cancellation and
the completion signal, clears isRunning, keeps the registered specs,
and produces exactly the state of a freshly constructed instance with
the same configuration and the same specs. -/
theorem stop_restores_fresh_state (s : State) (h : s.isRunning = true) :
    (stop s).2 = Option.none ∧
    (stop s).1.urls = [] ∧ (stop s).1.jobs = 0 ∧ (stop s).1.processes = 0 ∧
    (stop s).1.stopEvent = false ∧ (stop s).1.printed = false ∧
    (stop s).1.isRunning = false ∧ (stop s).1.tunnelList = s.tunnelList ∧
    (stop s).1 = { mkTunnel s.port s.checkLocalPort s.timeout with
                     tunnelList := s.tunnelList } := by
  cases s
  simp_all [stop, reset, mkTunnel]

/-- C8 witness: the concrete running instance is reset to the fresh
instance holding the same spec. -/
theorem stop_restores_fresh_state_witness :
    (stop runningState).2 = Option.none ∧
    (stop runningState).1.urls = [] ∧ (stop runningState).1.jobs = 0 ∧
    (stop runningState).1.processes = 0 ∧
    (stop runningState).1.stopEvent = false ∧ (stop runningState).1.printed = false ∧
    (stop runningState).1.isRunning = false ∧
    (stop runningState).1.tunnelList = runningState.tunnelList ∧
    (stop runningState).1 = { mkTunnel 3000 true 60 with
                                tunnelList := runningState.tunnelList } :=
  stop_restores_fresh_state runningState rfl

/-- C10: when the blocking start raises the no-specs validation error
on an instance whose checkLocalPort flag is enabled, the instance is
left with checkLocalPort disabled: start clears the flag before the
precondition check inside __enter__ runs, and because that call stands
outside the try statement, the finally restoration does not run on this
error path. -/
theorem start_error_leaves_flag_cleared (s : State) (h1 : s.isRunning = false)
    (h2 : s.tunnelList = []) (_h3 : s.checkLocalPort = true) :
    start s = ({ s with checkLocalPort := false },
               some (PyErr.valueError "No tunnels added")) ∧
    (start s).1.checkLocalPort = false := by
  have hs : start s = ({ s with checkLocalPort := false },
      some (PyErr.valueError "No tunnels added")) := by
    simp [start, enter, startSessionState, h1, h2]
  exact ⟨hs, by rw [hs]⟩

/-- C10 witness: a fresh instance with checkLocalPort enabled and no
specs registered. -/
theorem start_error_leaves_flag_cleared_witness :
    start (mkTunnel 3000 true 60) =
      ({ mkTunnel 3000 true 60 with checkLocalPort := false },
        some (PyErr.valueError "No tunnels added")) ∧
    (start (mkTunnel 3000 true 60)).1.checkLocalPort = false :=
  start_error_leaves_flag_cleared (mkTunnel 3000 true 60) rfl rfl rfl

/-- C1 counterexample: readyState has checkLocalPort enabled and its
blocking start succeeds, yet the session started by start runs its
workers with the gate cleared — a worker of a start-initiated session
does not block on the port gate before launching its external
command. -/
theorem start_disables_port_gate_cex :
    readyState.checkLocalPort = true ∧
    (start readyState).2 = Option.none ∧
    workerWaitsForPort (startSessionState readyState) = false :=
  ⟨rfl, rfl, rfl⟩

/-- C1 (amended/corrected): a ProcessWorker blocks on the port gate
before launching its external command exactly when the session it runs
in carries check_local_port set: a session begun with the scoped enter
keeps the constructor flag, so with checkLocalPort enabled its workers
block until the port is bound or cancellation is requested; but the
blocking start entry point clears check_local_port before calling
__enter__, so the workers of a start-initiated session skip the gate
and launch immediately, the saved flag being restored only when start
returns. -/
theorem port_gate_by_entrypoint (s : State) (h : s.checkLocalPort = true) :
    workerWaitsForPort (enter s).1 = true ∧
    workerWaitsForPort (startSessionState s) = false ∧
    ((start s).2 = Option.none → (start s).1.checkLocalPort = true) := by
  refine ⟨?_, rfl, ?_⟩
  · simp only [workerWaitsForPort, enter]
    split
    · exact h
    · split
      · exact h
      · exact h
  · intro hs
    by_cases hr : s.isRunning
    · simp [start, hr] at hs
    · by_cases he : s.tunnelList.isEmpty
      · simp [start, enter, startSessionState, hr, he] at hs
      · simp [start, enter, startSessionState, hr, he, h]

/-- C1 witness: the one-spec ready instance, gated through the scoped
enter and ungated through the blocking start. -/
theorem port_gate_by_entrypoint_witness :
    workerWaitsForPort (enter readyState).1 = true ∧
    workerWaitsForPort (startSessionState readyState) = false ∧
    (start readyState).1.checkLocalPort = true :=
  ⟨(port_gate_by_entrypoint readyState rfl).1,
   (port_gate_by_entrypoint readyState rfl).2.1,
   (port_gate_by_entrypoint readyState rfl).2.2 rfl⟩

end Tunnel
